import Mathlib

/-!
Shallow embedding of `src/index.ts` (class `MicrosoftRewardsBot`) of the
MRF-NET repository.

The orchestrator is modelled as pure functions that return the trace of
collaborator invocations (an explicit `List Event`), the resulting
`collectedPoints` counter, and an `Option Fault` standing for an exception
propagating out of the modelled code.  Collaborator behaviour (browser
factory, login service, dashboard client, task executors) is supplied by an
environment record per phase; an `Option Fault` field set to `some f` means
that collaborator call throws `f` when invoked.

Machine numbers of the JavaScript source are modelled as `Int`
(`collectedPoints`, earnable points, the `activeWorkers` counter, which the
source can in principle drive below zero) or `Nat` (list lengths, cluster
counts).
-/

/-- Proxy credentials of an account (`account.proxy` in `src/index.ts`). -/
structure Proxy where
  host : String
  username : String
  password : String
deriving DecidableEq, Repr

/-- An account entry (`interface/Account`): email, password and proxy. -/
structure Account where
  email : String
  password : String
  proxy : Proxy
deriving DecidableEq, Repr

/-- The per-task-executor boolean flags of `config.workers`. -/
structure WorkerFlags where
  doDailySet : Bool
  doMorePromotions : Bool
  doPunchCards : Bool
  doDesktopSearch : Bool
  doMobileSearch : Bool
deriving DecidableEq, Repr

/-- The parts of the loaded `config` that the orchestrator reads. -/
structure Config where
  clusters : Nat
  runOnZeroPoints : Bool
  workers : WorkerFlags
deriving DecidableEq, Repr

/-- Exceptions that a collaborator call can throw into the orchestrator.
`dashboardUnreachable` is the `throw` at `src/index.ts:145` (home navigation
failed in the Desktop phase); the others stand for arbitrary collaborator
faults. -/
inductive Fault where
  | loginFailed
  | dashboardUnreachable
  | providerFault (code : Nat)
deriving DecidableEq, Repr

/-- One collaborator invocation performed by the orchestrator.  Traces of
these events are what the theorems below count and compare. -/
inductive Event where
  | createBrowser (email : String) (isMobile : Bool)
  | closePage
  | authenticateProxy (email : String)
  | login (email : String)
  | goHome
  | getDashboardData
  | getEarnable
  | doDailySet
  | doMorePromotions
  | doPunchCard
  | doSearch (isMobile : Bool)
  | closeBrowser (email : String) (isMobile : Bool)
  | exitZero
deriving DecidableEq, Repr

/-- Collaborator behaviour injected into one Desktop phase run
(`Desktop`, `src/index.ts:124-185`).  An `Option Fault` field `some f`
means the corresponding `await` throws `f`. -/
structure DeskEnv where
  /-- Number of pages the fresh browser has after `newPage()`
  (`browser.pages()` at `src/index.ts:127`). -/
  initialPages : Nat
  /-- Fault of `page.authenticate` (`src/index.ts:136`). -/
  authFault : Option Fault
  /-- Fault of `login.login` (`src/index.ts:141`). -/
  loginFault : Option Fault
  /-- Return value of `goHome` (`src/index.ts:143`); `false` makes `Desktop`
  throw `dashboardUnreachable` (`src/index.ts:145`). -/
  goHomeOk : Bool
  /-- Fault of `getDashboardData` (`src/index.ts:148`). -/
  dashFault : Option Fault
  /-- Value of `getEarnablePoints(data)` (`src/index.ts:151`). -/
  earnable : Int
  /-- Fault of `workers.doDailySet` (`src/index.ts:165`). -/
  dailySetFault : Option Fault
  /-- Fault of `workers.doMorePromotions` (`src/index.ts:170`). -/
  morePromotionsFault : Option Fault
  /-- Fault of `workers.doPunchCard` (`src/index.ts:175`). -/
  punchCardFault : Option Fault
  /-- Fault of `activities.doSearch` (`src/index.ts:180`). -/
  searchFault : Option Fault
deriving DecidableEq, Repr

/-- Collaborator behaviour injected into one Mobile phase run
(`Mobile`, `src/index.ts:188-232`). -/
structure MobEnv where
  /-- Number of pages the fresh browser has after `newPage()`. -/
  initialPages : Nat
  /-- Fault of `page.authenticate` (`src/index.ts:199`). -/
  authFault : Option Fault
  /-- Fault of `login.login` (`src/index.ts:204`). -/
  loginFault : Option Fault
  /-- Return value of `goHome` (`src/index.ts:206`); the source discards it. -/
  goHomeOk : Bool
  /-- Fault of `getDashboardData` (`src/index.ts:208`). -/
  dashFault : Option Fault
  /-- Whether `data.userStatus.counters.mobileSearch` is present
  (`src/index.ts:211`). -/
  mobilePresent : Bool
  /-- Fault of `activities.doSearch` (`src/index.ts:220`). -/
  searchFault : Option Fault
  /-- Fault of the re-fetch `getEarnablePoints(data, page)` (`src/index.ts:224`). -/
  earnFault : Option Fault
  /-- Value returned by the re-fetch at `src/index.ts:224`. -/
  postEarnable : Int
deriving DecidableEq, Repr

/-- The page-pruning loop (`src/index.ts:130-133` and `194-197`): while the
browser has more than 2 pages, close `pages[0]`; its trace is one
`closePage` per excess page. -/
def prunePages (n : Nat) : List Event :=
  List.replicate (n - 2) Event.closePage

/-- Runs a sequence of flag-gated task executors (the four flag-guarded
`await` blocks at `src/index.ts:163-181`): each triple is
(config flag, invocation event, fault thrown by that executor).  A disabled
flag skips its executor; a throw stops the sequence and propagates. -/
def runGuarded : List (Bool × Event × Option Fault) → List Event × Option Fault
  | [] => ([], none)
  | (flag, ev, fault) :: rest =>
    if flag then
      match fault with
      | some f => ([ev], some f)
      | none =>
        match runGuarded rest with
        | (t, r) => (ev :: t, r)
    else runGuarded rest

/-- The Desktop phase task list in source order (`src/index.ts:163-181`):
daily set, more promotions, punch cards, desktop search. -/
def desktopTasks (cfg : Config) (e : DeskEnv) : List (Bool × Event × Option Fault) :=
  [(cfg.workers.doDailySet, Event.doDailySet, e.dailySetFault),
   (cfg.workers.doMorePromotions, Event.doMorePromotions, e.morePromotionsFault),
   (cfg.workers.doPunchCards, Event.doPunchCard, e.punchCardFault),
   (cfg.workers.doDesktopSearch, Event.doSearch false, e.searchFault)]

/-- The Desktop phase (`Desktop`, `src/index.ts:124-185`).  Returns the
event trace, the resulting `this.collectedPoints`, and the propagating
exception if any step threw. -/
def Desktop (cfg : Config) (account : Account) (e : DeskEnv) (collectedPoints : Int) :
    List Event × Int × Option Fault :=
  let t0 := Event.createBrowser account.email false :: prunePages e.initialPages
  let t1 := t0 ++ [Event.authenticateProxy account.email]
  match e.authFault with
  | some f => (t1, collectedPoints, some f)
  | none =>
  let t2 := t1 ++ [Event.login account.email]
  match e.loginFault with
  | some f => (t2, collectedPoints, some f)
  | none =>
  let t3 := t2 ++ [Event.goHome]
  if !e.goHomeOk then (t3, collectedPoints, some Fault.dashboardUnreachable)
  else
  let t4 := t3 ++ [Event.getDashboardData]
  match e.dashFault with
  | some f => (t4, collectedPoints, some f)
  | none =>
  let t5 := t4 ++ [Event.getEarnable]
  let collected := e.earnable
  if !cfg.runOnZeroPoints && collected == 0 then
    (t5 ++ [Event.closeBrowser account.email false], collected, none)
  else
    match runGuarded (desktopTasks cfg e) with
    | (t, some f) => (t5 ++ t, collected, some f)
    | (t, none) => (t5 ++ t ++ [Event.closeBrowser account.email false], collected, none)

/-- Tail of the Mobile phase after the optional mobile search
(`src/index.ts:223-231`): re-fetch earnable points, adjust
`collectedPoints`, close the browser. -/
def mobileFinish (account : Account) (e : MobEnv) (t : List Event) (collectedPoints : Int) :
    List Event × Int × Option Fault :=
  match e.earnFault with
  | some f => (t ++ [Event.getEarnable], collectedPoints, some f)
  | none =>
    (t ++ [Event.getEarnable, Event.closeBrowser account.email true],
     if e.postEarnable == 0 then collectedPoints else collectedPoints - e.postEarnable,
     none)

/-- The Mobile phase (`Mobile`, `src/index.ts:188-232`). -/
def Mobile (cfg : Config) (account : Account) (e : MobEnv) (collectedPoints : Int) :
    List Event × Int × Option Fault :=
  let t0 := Event.createBrowser account.email true :: prunePages e.initialPages
  let t1 := t0 ++ [Event.authenticateProxy account.email]
  match e.authFault with
  | some f => (t1, collectedPoints, some f)
  | none =>
  let t2 := t1 ++ [Event.login account.email]
  match e.loginFault with
  | some f => (t2, collectedPoints, some f)
  | none =>
  let t3 := t2 ++ [Event.goHome]
  let t4 := t3 ++ [Event.getDashboardData]
  match e.dashFault with
  | some f => (t4, collectedPoints, some f)
  | none =>
  if !e.mobilePresent then
    (t4 ++ [Event.closeBrowser account.email true], collectedPoints, none)
  else
    if cfg.workers.doMobileSearch then
      match e.searchFault with
      | some f => (t4 ++ [Event.doSearch true], collectedPoints, some f)
      | none => mobileFinish account e (t4 ++ [Event.doSearch true]) collectedPoints
    else
      mobileFinish account e t4 collectedPoints

/-- Per-account collaborator behaviour: one Desktop and one Mobile
environment. -/
structure AccountEnv where
  desk : DeskEnv
  mob : MobEnv
deriving DecidableEq, Repr

/-- The account sequencer (`runTasks`, `src/index.ts:100-121`): process the
accounts in order; after each Desktop phase, skip the Mobile phase when
`!config.runOnZeroPoints && collectedPoints === 0`; on chunk exhaustion call
`process.exit(0)` (the `exitZero` event).  There is no try/catch anywhere:
any fault aborts the loop and propagates. -/
def runTasks (cfg : Config) (env : Account → AccountEnv) :
    List Account → Int → List Event × Int × Option Fault
  | [], collectedPoints => ([Event.exitZero], collectedPoints, none)
  | account :: rest, collectedPoints =>
    match Desktop cfg account (env account).desk collectedPoints with
    | (t1, c1, some f) => (t1, c1, some f)
    | (t1, c1, none) =>
      if !cfg.runOnZeroPoints && c1 == 0 then
        match runTasks cfg env rest c1 with
        | (t2, c2, f2) => (t1 ++ t2, c2, f2)
      else
        match Mobile cfg account (env account).mob c1 with
        | (tm, cm, some f) => (t1 ++ tm, cm, some f)
        | (tm, cm, none) =>
          match runTasks cfg env rest cm with
          | (t2, c2, f2) => (t1 ++ tm ++ t2, c2, f2)

/-- The spec's pure Points Gate decision function (§4.5). -/
def shouldSkip (runOnZeroPoints : Bool) (collectedPoints : Int) : Bool :=
  !runOnZeroPoints && collectedPoints == 0

/-- Splits `xs` into consecutive chunks of the given sizes. -/
def splitBySizes : List Nat → List α → List (List α)
  | [], _ => []
  | s :: ss, xs => xs.take s :: splitBySizes ss (xs.drop s)

/-- The chunk sizes of an even split of `len` elements into `n` chunks:
`len % n` chunks of size `len / n + 1` followed by chunks of size `len / n`. -/
def chunkSizes (len n : Nat) : List Nat :=
  List.replicate (len % n) (len / n + 1) ++ List.replicate (n - len % n) (len / n)

/-- Modelled from the spec: `chunkArray` lives in `src/util/Utils.ts`, which
is not included under `src/`; §4.1 of the spec specifies it as splitting
`accounts` into `n` chunks as evenly as possible, preserving original order,
with size difference between any two chunks at most 1. -/
def chunkArray (xs : List α) (n : Nat) : List (List α) :=
  splitBySizes (chunkSizes xs.length n) xs

/-- A worker-exit notification received by the primary process
(`cluster.on('exit', (worker, code) => ...)`, `src/index.ts:79`): process id
and exit code.  The handler ignores both payloads. -/
structure ExitSignal where
  pid : Nat
  code : Int
deriving DecidableEq, Repr

/-- The primary process state relevant to run termination:
`this.activeWorkers` plus whether `process.exit(0)` has been called. -/
structure MasterState where
  activeWorkers : Int
  exited : Bool
deriving DecidableEq, Repr

/-- State after construction (`this.activeWorkers = this.config.clusters`,
`src/index.ts:46`). -/
def initialMasterState (cfg : Config) : MasterState :=
  ⟨(cfg.clusters : Int), false⟩

/-- The exit handler body (`src/index.ts:79-89`): decrement
`activeWorkers`; when it reaches 0, `process.exit(0)`.  A terminated process
runs no further handlers, so an exited state is frozen. -/
def onExit (s : MasterState) : MasterState :=
  if s.exited then s
  else { activeWorkers := s.activeWorkers - 1, exited := s.activeWorkers - 1 == 0 }

/-- The primary process observing a sequence of worker-exit notifications. -/
def masterObserve (s : MasterState) : List ExitSignal → MasterState
  | [] => s
  | _ :: rest => masterObserve (onExit s) rest

/-- Top-level actions taken by `run` (`src/index.ts:53-66`) together with
`runMaster` (`src/index.ts:68-77`) and `runWorker` (`src/index.ts:92-98`). -/
inductive RunAction where
  | forkAndSend (chunk : List Account)
  | awaitChunk
  | runTasksInProcess (accounts : List Account)
deriving DecidableEq, Repr

/-- `run` (`src/index.ts:53-66`): with more than one cluster the primary
forks one worker per account chunk and sends the chunk (`runMaster`,
`src/index.ts:73-77`) while a worker waits for its chunk message
(`runWorker`); otherwise the launching process runs every account
in-process. -/
def run (cfg : Config) (accounts : List Account) (isPrimary : Bool) : List RunAction :=
  if cfg.clusters > 1 then
    if isPrimary then (chunkArray accounts cfg.clusters).map RunAction.forkAndSend
    else [RunAction.awaitChunk]
  else
    [RunAction.runTasksInProcess accounts]

/-! ### Trace observers -/

/-- Recognises a `browser.close()` invocation. -/
def isCloseBrowser : Event → Bool
  | .closeBrowser _ _ => true
  | _ => false

/-- Number of `browser.close()` invocations in a trace. -/
def closeBrowserCount (t : List Event) : Nat := t.countP isCloseBrowser

/-- Recognises the opening of a desktop browser session. -/
def isDeskStart : Event → Bool
  | .createBrowser _ false => true
  | _ => false

/-- Number of desktop sessions opened in a trace. -/
def deskStarts (t : List Event) : Nat := t.countP isDeskStart

/-- Recognises the opening of a mobile browser session (entry into the
Mobile phase). -/
def isMobileStart : Event → Bool
  | .createBrowser _ true => true
  | _ => false

/-- Number of mobile sessions opened in a trace. -/
def mobileStarts (t : List Event) : Nat := t.countP isMobileStart

/-- Recognises `process.exit(0)`. -/
def isExitZero : Event → Bool
  | .exitZero => true
  | _ => false

/-- Number of `process.exit(0)` calls in a trace. -/
def exitZeroCount (t : List Event) : Nat := t.countP isExitZero

/-- Recognises an invocation of the mobile search executor. -/
def isMobileSearch : Event → Bool
  | .doSearch true => true
  | _ => false

/-- Number of mobile search executor invocations in a trace. -/
def mobileSearchCount (t : List Event) : Nat := t.countP isMobileSearch

/-- Recognises a `getEarnablePoints` fetch. -/
def isGetEarnable : Event → Bool
  | .getEarnable => true
  | _ => false

/-- Number of `getEarnablePoints` fetches in a trace. -/
def getEarnableCount (t : List Event) : Nat := t.countP isGetEarnable

/-- Recognises a task-executor invocation (daily set, more promotions,
punch cards, search). -/
def isTaskEvent : Event → Bool
  | .doDailySet => true
  | .doMorePromotions => true
  | .doPunchCard => true
  | .doSearch _ => true
  | _ => false

/-- The sub-trace of task-executor invocations. -/
def taskEvents (t : List Event) : List Event := t.filter isTaskEvent

/-- The config flag gating each task-executor event. -/
def taskEnabled (cfg : Config) : Event → Bool
  | .doDailySet => cfg.workers.doDailySet
  | .doMorePromotions => cfg.workers.doMorePromotions
  | .doPunchCard => cfg.workers.doPunchCards
  | .doSearch false => cfg.workers.doDesktopSearch
  | .doSearch true => cfg.workers.doMobileSearch
  | _ => false

/-- No collaborator call of this Desktop environment throws, and home
navigation succeeds. -/
def DeskEnv.faultFree (e : DeskEnv) : Prop :=
  e.authFault = none ∧ e.loginFault = none ∧ e.goHomeOk = true ∧ e.dashFault = none ∧
  e.dailySetFault = none ∧ e.morePromotionsFault = none ∧ e.punchCardFault = none ∧
  e.searchFault = none

instance (e : DeskEnv) : Decidable e.faultFree := by
  unfold DeskEnv.faultFree
  infer_instance

/-- No collaborator call of this Mobile environment throws. -/
def MobEnv.faultFree (e : MobEnv) : Prop :=
  e.authFault = none ∧ e.loginFault = none ∧ e.dashFault = none ∧
  e.searchFault = none ∧ e.earnFault = none

instance (e : MobEnv) : Decidable e.faultFree := by
  unfold MobEnv.faultFree
  infer_instance

/-- Both phases of this account run without collaborator faults. -/
def AccountEnv.faultFree (e : AccountEnv) : Prop :=
  e.desk.faultFree ∧ e.mob.faultFree

instance (e : AccountEnv) : Decidable e.faultFree := by
  unfold AccountEnv.faultFree
  infer_instance

/-! ### Helper lemmas -/

lemma countP_prunePages (p : Event → Bool) (h : p Event.closePage = false) (n : Nat) :
    (prunePages n).countP p = 0 :=
  List.countP_eq_zero.mpr fun a ha => by
    rw [List.eq_of_mem_replicate ha, h]
    simp

lemma filter_prunePages (p : Event → Bool) (h : p Event.closePage = false) (n : Nat) :
    (prunePages n).filter p = [] := by
  rw [List.filter_eq_nil_iff]
  intro a ha
  rw [List.eq_of_mem_replicate ha, h]
  simp

lemma runGuarded_ok (l : List (Bool × Event × Option Fault))
    (h : ∀ x ∈ l, x.2.2 = none) :
    runGuarded l = ((l.filter fun x => x.1).map fun x => x.2.1, none) := by
  induction l with
  | nil => rfl
  | cons x rest ih =>
    obtain ⟨flag, ev, fault⟩ := x
    have hx : fault = none := h _ (List.mem_cons_self _ _)
    subst hx
    have hrest : ∀ y ∈ rest, y.2.2 = none := fun y hy => h y (List.mem_cons_of_mem _ hy)
    cases flag <;> simp [runGuarded, ih hrest, List.filter_cons]

lemma countP_desktopTaskList (p : Event → Bool)
    (hp1 : p Event.doDailySet = false) (hp2 : p Event.doMorePromotions = false)
    (hp3 : p Event.doPunchCard = false) (hp4 : p (Event.doSearch false) = false)
    (cfg : Config) (e : DeskEnv) :
    (((desktopTasks cfg e).filter fun x => x.1).map fun x => x.2.1).countP p = 0 := by
  obtain ⟨cl, rz, ⟨a, b, c, d, m⟩⟩ := cfg
  cases a <;> cases b <;> cases c <;> cases d <;>
    simp [desktopTasks, List.filter, List.countP_cons, hp1, hp2, hp3, hp4]

lemma Desktop_ok (cfg : Config) (account : Account) (e : DeskEnv) (c : Int)
    (h : e.faultFree) :
    ∃ t, Desktop cfg account e c = (t, e.earnable, none) ∧
      deskStarts t = 1 ∧ mobileStarts t = 0 ∧ exitZeroCount t = 0 := by
  obtain ⟨h1, h2, h3, h4, h5, h6, h7, h8⟩ := h
  have hrg : runGuarded (desktopTasks cfg e) =
      (((desktopTasks cfg e).filter fun x => x.1).map fun x => x.2.1, none) := by
    refine runGuarded_ok _ fun x hx => ?_
    simp only [desktopTasks, List.mem_cons, List.not_mem_nil, or_false] at hx
    rcases hx with h | h | h | h <;> simp [h, h5, h6, h7, h8]
  have hds := countP_desktopTaskList isDeskStart rfl rfl rfl rfl cfg e
  have hms := countP_desktopTaskList isMobileStart rfl rfl rfl rfl cfg e
  have hez := countP_desktopTaskList isExitZero rfl rfl rfl rfl cfg e
  simp only [Desktop, h1, h2, h3, h4, hrg, Bool.not_true, Bool.false_eq_true, if_false]
  split
  · exact ⟨_, rfl, by
      simp [deskStarts, mobileStarts, exitZeroCount, List.countP_append, List.countP_cons,
        countP_prunePages, isDeskStart, isMobileStart, isExitZero]⟩
  · exact ⟨_, rfl, by
      simp [deskStarts, mobileStarts, exitZeroCount, List.countP_append, List.countP_cons,
        countP_prunePages, hds, hms, hez, isDeskStart, isMobileStart, isExitZero]⟩

lemma Mobile_ok (cfg : Config) (account : Account) (e : MobEnv) (c : Int)
    (h : e.faultFree) :
    ∃ t, Mobile cfg account e c =
      (t,
       if e.mobilePresent then
         (if e.postEarnable == 0 then c else c - e.postEarnable)
       else c,
       none) ∧
      deskStarts t = 0 ∧ mobileStarts t = 1 ∧ exitZeroCount t = 0 := by
  obtain ⟨h1, h2, h3, h4, h5⟩ := h
  simp only [Mobile, mobileFinish, h1, h2, h3, h4, h5]
  cases hp : e.mobilePresent with
  | false =>
    exact ⟨_, rfl, by
      simp [deskStarts, mobileStarts, exitZeroCount, List.countP_append, List.countP_cons,
        countP_prunePages, isDeskStart, isMobileStart, isExitZero]⟩
  | true =>
    cases hms : cfg.workers.doMobileSearch <;>
      exact ⟨_, rfl, by
        simp [deskStarts, mobileStarts, exitZeroCount, List.countP_append, List.countP_cons,
          countP_prunePages, isDeskStart, isMobileStart, isExitZero]⟩

lemma Desktop_goHome_fail (cfg : Config) (account : Account) (e : DeskEnv) (c : Int)
    (h1 : e.authFault = none) (h2 : e.loginFault = none) (h3 : e.goHomeOk = false) :
    ∃ t, Desktop cfg account e c = (t, c, some Fault.dashboardUnreachable) ∧
      deskStarts t = 1 ∧ mobileStarts t = 0 ∧ exitZeroCount t = 0 ∧
      closeBrowserCount t = 0 := by
  simp only [Desktop, h1, h2, h3, Bool.not_false, if_true]
  exact ⟨_, rfl, by
    simp [deskStarts, mobileStarts, exitZeroCount, closeBrowserCount, List.countP_append,
      List.countP_cons, countP_prunePages, isDeskStart, isMobileStart, isExitZero,
      isCloseBrowser]⟩

lemma splitBySizes_length (sizes : List Nat) (xs : List α) :
    (splitBySizes sizes xs).length = sizes.length := by
  induction sizes generalizing xs with
  | nil => rfl
  | cons s ss ih => simp [splitBySizes, ih]

lemma splitBySizes_flatten (sizes : List Nat) (xs : List α)
    (h : sizes.sum = xs.length) :
    (splitBySizes sizes xs).flatten = xs := by
  induction sizes generalizing xs with
  | nil =>
    simp only [List.sum_nil] at h
    rw [List.eq_nil_of_length_eq_zero h.symm]
    rfl
  | cons s ss ih =>
    simp only [List.sum_cons] at h
    have hd : ss.sum = (xs.drop s).length := by
      rw [List.length_drop]
      omega
    simp only [splitBySizes, List.flatten_cons, ih _ hd]
    exact List.take_append_drop s xs

lemma splitBySizes_map_length (sizes : List Nat) (xs : List α)
    (h : sizes.sum = xs.length) :
    (splitBySizes sizes xs).map List.length = sizes := by
  induction sizes generalizing xs with
  | nil => rfl
  | cons s ss ih =>
    simp only [List.sum_cons] at h
    have hs : s ≤ xs.length := by omega
    have hd : ss.sum = (xs.drop s).length := by
      rw [List.length_drop]
      omega
    simp [splitBySizes, ih _ hd, List.length_take, Nat.min_eq_left hs]

lemma chunkSizes_length (L n : Nat) (hn : 1 ≤ n) : (chunkSizes L n).length = n := by
  have hr : L % n < n := Nat.mod_lt _ hn
  simp only [chunkSizes, List.length_append, List.length_replicate]
  omega

lemma chunkSizes_sum (L n : Nat) (hn : 1 ≤ n) : (chunkSizes L n).sum = L := by
  have hr : L % n < n := Nat.mod_lt _ hn
  have hd := Nat.div_add_mod L n
  rw [chunkSizes, List.sum_append, List.sum_replicate, List.sum_replicate, smul_eq_mul,
    smul_eq_mul, Nat.mul_add, Nat.mul_one, Nat.sub_mul]
  have h2 : L % n * (L / n) ≤ n * (L / n) :=
    Nat.mul_le_mul_right _ (le_of_lt hr)
  generalize hA : L % n * (L / n) = A at h2 ⊢
  generalize hB : n * (L / n) = B at h2 hd ⊢
  omega

lemma chunkSizes_mem (L n s : Nat) (h : s ∈ chunkSizes L n) :
    s = L / n ∨ s = L / n + 1 := by
  rcases List.mem_append.mp h with h | h
  · exact Or.inr (List.eq_of_mem_replicate h)
  · exact Or.inl (List.eq_of_mem_replicate h)

/-- Any two chunks differ in size by at most 1. -/
def sizesBalanced (cs : List (List α)) : Prop :=
  ∀ c1 ∈ cs, ∀ c2 ∈ cs, c1.length ≤ c2.length + 1

instance (cs : List (List α)) : Decidable (sizesBalanced cs) := by
  unfold sizesBalanced
  infer_instance

/-- Claim C2: for every account list and every worker count `n ≥ 1`, the
partitioner returns exactly `n` chunks whose concatenation is the input list
(hence order-preserving and non-overlapping) and whose sizes pairwise differ
by at most 1. -/
theorem c2_chunk_partition (xs : List α) (n : Nat) (hn : 1 ≤ n) :
    (chunkArray xs n).length = n ∧
    (chunkArray xs n).flatten = xs ∧
    sizesBalanced (chunkArray xs n) := by
  have hsum := chunkSizes_sum xs.length n hn
  refine ⟨?_, splitBySizes_flatten _ _ hsum, ?_⟩
  · rw [chunkArray, splitBySizes_length, chunkSizes_length _ _ hn]
  · intro c1 hc1 c2 hc2
    have h1 : c1.length ∈ chunkSizes xs.length n := by
      rw [← splitBySizes_map_length _ _ hsum]
      exact List.mem_map_of_mem _ hc1
    have h2 : c2.length ∈ chunkSizes xs.length n := by
      rw [← splitBySizes_map_length _ _ hsum]
      exact List.mem_map_of_mem _ hc2
    rcases chunkSizes_mem _ _ _ h1 with h | h <;>
      rcases chunkSizes_mem _ _ _ h2 with g | g <;> omega

/-- Sample proxy used by the concrete witnesses below. -/
def proxyW : Proxy := ⟨"127.0.0.1", "user", "pass"⟩

/-- Sample accounts used by the concrete witnesses below. -/
def accA : Account := ⟨"a@example.com", "pwA", proxyW⟩

def accB : Account := ⟨"b@example.com", "pwB", proxyW⟩

def accC : Account := ⟨"c@example.com", "pwC", proxyW⟩

/-- Witness for C2 at a concrete account list and worker count. -/
theorem c2_chunk_partition_witness :
    1 ≤ 2 ∧
    ((chunkArray [accA, accB, accC] 2).length = 2 ∧
     (chunkArray [accA, accB, accC] 2).flatten = [accA, accB, accC] ∧
     sizesBalanced (chunkArray [accA, accB, accC] 2)) :=
  ⟨by decide, c2_chunk_partition [accA, accB, accC] 2 (by decide)⟩

/-- All-flags-on config with `runOnZeroPoints = true`, used by witnesses. -/
def cfgAll : Config := ⟨1, true, ⟨true, true, true, true, true⟩⟩

/-- A fault-free Desktop environment earning `p` points. -/
def deskEnvW (p : Int) : DeskEnv := ⟨2, none, none, true, none, p, none, none, none, none⟩

/-- A fault-free Mobile environment with the given mobile-search counter
presence and post-search earnable points `p`. -/
def mobEnvW (present : Bool) (p : Int) : MobEnv :=
  ⟨2, none, none, true, none, present, none, none, p⟩

/-- Claim C4: the Desktop phase sets `collectedPoints` to the freshly
fetched earnable points; the Mobile phase (mobile counter present) re-fetches
and leaves `collectedPoints` unchanged when the post-search earnable count is
0, else subtracts the still-earnable amount. -/
theorem c4_points_accounting (cfg : Config) (account : Account) (de : DeskEnv)
    (me : MobEnv) (c cm : Int) (hd : de.faultFree) (hm : me.faultFree)
    (hp : me.mobilePresent = true) :
    (Desktop cfg account de c).2.1 = de.earnable ∧
    (Mobile cfg account me cm).2.1 =
      (if me.postEarnable == 0 then cm else cm - me.postEarnable) := by
  obtain ⟨t1, hD, _⟩ := Desktop_ok cfg account de c hd
  obtain ⟨t2, hM, _⟩ := Mobile_ok cfg account me cm hm
  rw [hD, hM]
  simp [hp]

/-- Witness for C4: Desktop sets 30; Mobile with post-search earnable 10
yields 20, with post-search earnable 0 leaves 30. -/
theorem c4_points_accounting_witness :
    (deskEnvW 30).faultFree ∧ (mobEnvW true 10).faultFree ∧
    (mobEnvW true 0).faultFree ∧
    (Desktop cfgAll accA (deskEnvW 30) 0).2.1 = 30 ∧
    (Mobile cfgAll accA (mobEnvW true 10) 30).2.1 = 20 ∧
    (Mobile cfgAll accA (mobEnvW true 0) 30).2.1 = 30 :=
  ⟨by decide, by decide, by decide,
   (c4_points_accounting cfgAll accA (deskEnvW 30) (mobEnvW true 10) 0 30
      (by decide) (by decide) rfl).1,
   by simpa using
     (c4_points_accounting cfgAll accA (deskEnvW 30) (mobEnvW true 10) 0 30
        (by decide) (by decide) rfl).2,
   by simpa using
     (c4_points_accounting cfgAll accA (deskEnvW 30) (mobEnvW true 0) 0 30
        (by decide) (by decide) rfl).2⟩

/-- Claim C8: when the dashboard data has no mobile-search counter, the
Mobile phase closes its session and returns (points unchanged, no fault)
without invoking the mobile search executor. -/
theorem c8_mobile_counter_absent (cfg : Config) (account : Account) (e : MobEnv)
    (cm : Int) (h1 : e.authFault = none) (h2 : e.loginFault = none)
    (h3 : e.dashFault = none) (hp : e.mobilePresent = false) :
    mobileSearchCount (Mobile cfg account e cm).1 = 0 ∧
    closeBrowserCount (Mobile cfg account e cm).1 = 1 ∧
    (Mobile cfg account e cm).2.1 = cm ∧
    (Mobile cfg account e cm).2.2 = none := by
  simp only [Mobile, h1, h2, h3, hp, Bool.not_false]
  rw [if_pos trivial]
  refine ⟨?_, ?_, rfl, rfl⟩ <;>
    simp [mobileSearchCount, closeBrowserCount, List.countP_append, List.countP_cons,
      countP_prunePages, isMobileSearch, isCloseBrowser]

/-- Witness for C8 at a concrete fault-free environment without the
mobile-search counter. -/
theorem c8_mobile_counter_absent_witness :
    (mobEnvW false 0).authFault = none ∧
    (mobileSearchCount (Mobile cfgAll accA (mobEnvW false 0) 7).1 = 0 ∧
     closeBrowserCount (Mobile cfgAll accA (mobEnvW false 0) 7).1 = 1 ∧
     (Mobile cfgAll accA (mobEnvW false 0) 7).2.1 = 7 ∧
     (Mobile cfgAll accA (mobEnvW false 0) 7).2.2 = none) :=
  ⟨rfl, c8_mobile_counter_absent cfgAll accA (mobEnvW false 0) 7 rfl rfl rfl rfl⟩

/-- Claim C9: with the mobile-search counter present, the earnable-points
re-fetch and the `collectedPoints` adjustment happen even when
`doMobileSearch` is false; only the search executor itself is gated. -/
theorem c9_accounting_not_gated (cfg : Config) (account : Account) (e : MobEnv)
    (cm : Int) (h : e.faultFree) (hp : e.mobilePresent = true)
    (hflag : cfg.workers.doMobileSearch = false) :
    getEarnableCount (Mobile cfg account e cm).1 = 1 ∧
    mobileSearchCount (Mobile cfg account e cm).1 = 0 ∧
    (Mobile cfg account e cm).2.1 =
      (if e.postEarnable == 0 then cm else cm - e.postEarnable) ∧
    (Mobile cfg account e cm).2.2 = none := by
  obtain ⟨h1, h2, h3, h4, h5⟩ := h
  simp only [Mobile, mobileFinish, h1, h2, h3, h4, h5, hp, hflag, Bool.not_true]
  rw [if_neg (by simp), if_neg (by simp)]
  refine ⟨?_, ?_, rfl, rfl⟩ <;>
    simp [getEarnableCount, mobileSearchCount, List.countP_append, List.countP_cons,
      countP_prunePages, isGetEarnable, isMobileSearch]

/-- Config with `doMobileSearch` disabled, used by the C9 witness. -/
def cfgNoMobileSearch : Config := ⟨1, true, ⟨true, true, true, true, false⟩⟩

/-- Witness for C9 at a concrete environment: the adjustment runs although
the mobile search flag is off. -/
theorem c9_accounting_not_gated_witness :
    (mobEnvW true 10).faultFree ∧
    (getEarnableCount (Mobile cfgNoMobileSearch accA (mobEnvW true 10) 30).1 = 1 ∧
     mobileSearchCount (Mobile cfgNoMobileSearch accA (mobEnvW true 10) 30).1 = 0 ∧
     (Mobile cfgNoMobileSearch accA (mobEnvW true 10) 30).2.1 =
       (if (10 : Int) == 0 then (30 : Int) else 30 - 10) ∧
     (Mobile cfgNoMobileSearch accA (mobEnvW true 10) 30).2.2 = none) :=
  ⟨by decide,
   c9_accounting_not_gated cfgNoMobileSearch accA (mobEnvW true 10) 30
     (by decide) rfl rfl⟩

lemma filter_isTask_desktopTaskList (cfg : Config) (e : DeskEnv) :
    List.filter isTaskEvent (((desktopTasks cfg e).filter fun x => x.1).map fun x => x.2.1) =
      [Event.doDailySet, Event.doMorePromotions, Event.doPunchCard,
       Event.doSearch false].filter (taskEnabled cfg) := by
  obtain ⟨cl, rz, ⟨a, b, c, d, m⟩⟩ := cfg
  cases a <;> cases b <;> cases c <;> cases d <;> rfl

/-- Claim C7: with `runOnZeroPoints = false` and earnable points 0 the
Desktop phase invokes no task executor and still closes its session;
otherwise the enabled executors run in the fixed order daily set,
more promotions, punch cards, desktop search, each gated by its own flag. -/
theorem c7_desktop_gating (cfg : Config) (account : Account) (e : DeskEnv) (c : Int)
    (h : e.faultFree) :
    taskEvents (Desktop cfg account e c).1 =
      (if !cfg.runOnZeroPoints && e.earnable == 0 then []
       else [Event.doDailySet, Event.doMorePromotions, Event.doPunchCard,
             Event.doSearch false].filter (taskEnabled cfg)) ∧
    closeBrowserCount (Desktop cfg account e c).1 = 1 := by
  obtain ⟨h1, h2, h3, h4, h5, h6, h7, h8⟩ := h
  have hrg : runGuarded (desktopTasks cfg e) =
      (((desktopTasks cfg e).filter fun x => x.1).map fun x => x.2.1, none) := by
    refine runGuarded_ok _ fun x hx => ?_
    simp only [desktopTasks, List.mem_cons, List.not_mem_nil, or_false] at hx
    rcases hx with h | h | h | h <;> simp [h, h5, h6, h7, h8]
  have hcl := countP_desktopTaskList isCloseBrowser rfl rfl rfl rfl cfg e
  simp only [Desktop, h1, h2, h3, h4, hrg, Bool.not_true, Bool.false_eq_true, if_false]
  split
  · refine ⟨?_, ?_⟩
    · simp [taskEvents, List.filter_append, filter_prunePages isTaskEvent rfl, isTaskEvent]
    · simp [closeBrowserCount, List.countP_append, List.countP_cons,
        countP_prunePages isCloseBrowser rfl, isCloseBrowser]
  · refine ⟨?_, ?_⟩
    · simp [taskEvents, List.filter_append, filter_prunePages isTaskEvent rfl, isTaskEvent,
        filter_isTask_desktopTaskList]
    · simp [closeBrowserCount, List.countP_append, List.countP_cons,
        countP_prunePages isCloseBrowser rfl, isCloseBrowser, hcl]

/-- Config with `runOnZeroPoints = false` and a mix of enabled executors,
used by the C7 witness. -/
def cfgMixed : Config := ⟨1, false, ⟨true, false, true, false, true⟩⟩

/-- Witness for C7: gated early exit at earnable 0, and the mixed-flag
executor list at earnable 5. -/
theorem c7_desktop_gating_witness :
    (deskEnvW 0).faultFree ∧ (deskEnvW 5).faultFree ∧
    (taskEvents (Desktop cfgMixed accA (deskEnvW 0) 0).1 =
       (if !cfgMixed.runOnZeroPoints && (deskEnvW 0).earnable == 0 then []
        else [Event.doDailySet, Event.doMorePromotions, Event.doPunchCard,
              Event.doSearch false].filter (taskEnabled cfgMixed)) ∧
     closeBrowserCount (Desktop cfgMixed accA (deskEnvW 0) 0).1 = 1) ∧
    (taskEvents (Desktop cfgMixed accA (deskEnvW 5) 0).1 =
       (if !cfgMixed.runOnZeroPoints && (deskEnvW 5).earnable == 0 then []
        else [Event.doDailySet, Event.doMorePromotions, Event.doPunchCard,
              Event.doSearch false].filter (taskEnabled cfgMixed)) ∧
     closeBrowserCount (Desktop cfgMixed accA (deskEnvW 5) 0).1 = 1) :=
  ⟨by decide, by decide,
   c7_desktop_gating cfgMixed accA (deskEnvW 0) 0 (by decide),
   c7_desktop_gating cfgMixed accA (deskEnvW 5) 0 (by decide)⟩

/-- Every account in the list has a fault-free environment. -/
def allFaultFree (env : Account → AccountEnv) (accounts : List Account) : Prop :=
  ∀ a ∈ accounts, (env a).faultFree

instance (env : Account → AccountEnv) (accounts : List Account) :
    Decidable (allFaultFree env accounts) := by
  unfold allFaultFree
  infer_instance

/-- Claim C3: in a fault-free run the sequencer enters the Mobile phase for
exactly the accounts whose Desktop-produced `collectedPoints` fail the
`shouldSkip` gate; gated accounts are passed over straight to the next
account. -/
theorem c3_points_gate (cfg : Config) (env : Account → AccountEnv)
    (accounts : List Account) (c : Int) (h : allFaultFree env accounts) :
    mobileStarts (runTasks cfg env accounts c).1 =
      (accounts.filter fun a =>
        !shouldSkip cfg.runOnZeroPoints (env a).desk.earnable).length := by
  revert h
  induction accounts generalizing c with
  | nil =>
    intro h
    simp [runTasks, mobileStarts, List.countP_cons, isMobileStart]
  | cons a rest ih =>
    intro h
    obtain ⟨hd, hm⟩ := h a (List.mem_cons_self a rest)
    have hrest : allFaultFree env rest := fun x hx => h x (List.mem_cons_of_mem a hx)
    obtain ⟨t1, hD, hds1, hms1, hez1⟩ := Desktop_ok cfg a (env a).desk c hd
    obtain ⟨tm, hM0, hds2, hms2, hez2⟩ := Mobile_ok cfg a (env a).mob (env a).desk.earnable hm
    obtain ⟨cmv, hM⟩ : ∃ cmv,
        Mobile cfg a (env a).mob (env a).desk.earnable = (tm, cmv, none) := ⟨_, hM0⟩
    simp only [runTasks, hD, hM, List.filter_cons, shouldSkip]
    cases hgb : (!cfg.runOnZeroPoints && (env a).desk.earnable == 0) with
    | true =>
      have ihr := ih (env a).desk.earnable hrest
      simp only [mobileStarts] at ihr hms1
      simp [mobileStarts, List.countP_append, ihr, hms1, shouldSkip, hgb]
    | false =>
      have ihr := ih cmv hrest
      simp only [mobileStarts] at ihr hms1 hms2
      simp [mobileStarts, List.countP_append, ihr, hms1, hms2, shouldSkip, hgb]
      omega

/-- A fault-free per-account environment: desktop earnable `dp`,
mobile-search counter presence `mp`, post-search earnable `pp`. -/
def accEnvW (dp : Int) (mp : Bool) (pp : Int) : AccountEnv :=
  ⟨deskEnvW dp, mobEnvW mp pp⟩

/-- Environment for the C3 witness: `accA` earns 0 desktop points (gated),
every other account earns 5. -/
def envW : Account → AccountEnv :=
  fun a => if a = accA then accEnvW 0 true 0 else accEnvW 5 true 2

/-- Witness for C3: with `runOnZeroPoints = false`, the zero-point account
is skipped and the five-point account enters Mobile — one mobile session for
the two accounts. -/
theorem c3_points_gate_witness :
    allFaultFree envW [accA, accB] ∧
    mobileStarts (runTasks cfgMixed envW [accA, accB] 0).1 =
      ([accA, accB].filter fun a =>
        !shouldSkip cfgMixed.runOnZeroPoints (envW a).desk.earnable).length :=
  ⟨by decide, c3_points_gate cfgMixed envW [accA, accB] 0 (by decide)⟩

/-- Claim C6: a `dashboardUnreachable` fault in some account's Desktop phase
propagates out of the sequencer uncaught: the run result carries the fault,
only the earlier accounts plus the faulting one ever started a desktop
session (the rest of the chunk is abandoned), and the normal-completion
`process.exit(0)` is never reached. -/
theorem c6_fault_propagation (cfg : Config) (env : Account → AccountEnv)
    (pre post : List Account) (a : Account) (c : Int)
    (hpre : allFaultFree env pre)
    (h1 : (env a).desk.authFault = none) (h2 : (env a).desk.loginFault = none)
    (h3 : (env a).desk.goHomeOk = false) :
    (runTasks cfg env (pre ++ a :: post) c).2.2 = some Fault.dashboardUnreachable ∧
    deskStarts (runTasks cfg env (pre ++ a :: post) c).1 = pre.length + 1 ∧
    exitZeroCount (runTasks cfg env (pre ++ a :: post) c).1 = 0 := by
  revert hpre
  induction pre generalizing c with
  | nil =>
    intro hpre
    obtain ⟨tf, hDf, hds, hms, hez, hcl⟩ := Desktop_goHome_fail cfg a (env a).desk c h1 h2 h3
    simp only [List.nil_append, runTasks, hDf]
    exact ⟨by trivial, by simpa using hds, by simpa using hez⟩
  | cons x pre ih =>
    intro hpre
    obtain ⟨hd, hm⟩ := hpre x (List.mem_cons_self x pre)
    have hrest : allFaultFree env pre := fun y hy => hpre y (List.mem_cons_of_mem x hy)
    obtain ⟨t1, hD, hds1, hms1, hez1⟩ := Desktop_ok cfg x (env x).desk c hd
    obtain ⟨tm, hM0, hds2, hms2, hez2⟩ := Mobile_ok cfg x (env x).mob (env x).desk.earnable hm
    obtain ⟨cmv, hM⟩ : ∃ cmv,
        Mobile cfg x (env x).mob (env x).desk.earnable = (tm, cmv, none) := ⟨_, hM0⟩
    simp only [List.cons_append, runTasks, hD, hM]
    cases hgb : (!cfg.runOnZeroPoints && (env x).desk.earnable == 0) with
    | true =>
      obtain ⟨hf, hds, hez⟩ := ih (env x).desk.earnable hrest
      simp only [deskStarts, exitZeroCount] at hds1 hez1 hds hez
      refine ⟨?_, ?_, ?_⟩ <;>
        simp [deskStarts, exitZeroCount, List.countP_append, hds1, hez1, hds, hez, hf] <;>
        omega
    | false =>
      obtain ⟨hf, hds, hez⟩ := ih cmv hrest
      simp only [deskStarts, exitZeroCount] at hds1 hds2 hez1 hez2 hds hez
      refine ⟨?_, ?_, ?_⟩ <;>
        simp [deskStarts, exitZeroCount, List.countP_append, hds1, hds2, hez1, hez2,
          hds, hez, hf] <;>
        omega

/-- Desktop environment whose home navigation fails, triggering the
`dashboardUnreachable` throw. -/
def deskEnvHomeFail : DeskEnv := ⟨2, none, none, false, none, 0, none, none, none, none⟩

/-- Environment for the C6 witness: `accB` cannot reach the dashboard,
every other account is fault-free. -/
def envC6 : Account → AccountEnv :=
  fun x => if x = accB then ⟨deskEnvHomeFail, mobEnvW true 0⟩ else accEnvW 5 true 2

/-- Witness for C6: with chunk `[accA, accB, accC]` and `accB` faulting, the
fault propagates, only two desktop sessions start (`accC` is abandoned) and
`process.exit(0)` never runs. -/
theorem c6_fault_propagation_witness :
    allFaultFree envC6 [accA] ∧
    ((runTasks cfgAll envC6 ([accA] ++ accB :: [accC]) 0).2.2 =
        some Fault.dashboardUnreachable ∧
     deskStarts (runTasks cfgAll envC6 ([accA] ++ accB :: [accC]) 0).1 =
        [accA].length + 1 ∧
     exitZeroCount (runTasks cfgAll envC6 ([accA] ++ accB :: [accC]) 0).1 = 0) :=
  ⟨by decide,
   c6_fault_propagation cfgAll envC6 [accA] [accC] accB 0 (by decide) (by decide)
     (by decide) (by decide)⟩

lemma masterObserve_frozen (l : List ExitSignal) (x : Int) :
    masterObserve ⟨x, true⟩ l = ⟨x, true⟩ := by
  induction l with
  | nil => rfl
  | cons s rest ih => simp [masterObserve, onExit, ih]

lemma masterObserve_length_eq (s : MasterState) (l l2 : List ExitSignal)
    (h : l.length = l2.length) : masterObserve s l = masterObserve s l2 := by
  induction l generalizing s l2 with
  | nil =>
    cases l2 with
    | nil => rfl
    | cons b rest2 => simp at h
  | cons a rest ih =>
    cases l2 with
    | nil => simp at h
    | cons b rest2 =>
      simp only [List.length_cons, Nat.add_right_cancel_iff] at h
      simp [masterObserve, ih (onExit s) rest2 h]

lemma masterObserve_exit_iff (n : Int) (hn : 0 < n) (l : List ExitSignal) :
    (masterObserve ⟨n, false⟩ l).exited = true ↔ n ≤ (l.length : Int) := by
  induction l generalizing n with
  | nil =>
    simp [masterObserve]
    omega
  | cons s rest ih =>
    simp only [masterObserve, onExit]
    by_cases h1 : n = 1
    · subst h1
      have hz : ((1 : Int) - 1 == 0) = true := by decide
      simp [hz, masterObserve_frozen]
    · have hz : (n - 1 == 0) = false := by
        simp only [beq_eq_false_iff_ne, ne_eq]
        omega
      simp only [Bool.false_eq_true, if_false, hz]
      rw [ih (n - 1) (by omega)]
      simp only [List.length_cons]
      push_cast
      omega

/-- Claim C5: the coordinator reaches run termination (`process.exit(0)`)
exactly when it has observed as many worker-exit signals as there are lanes
(`config.clusters`) — never earlier — and the outcome depends only on how
many signals arrived, not on their order or payloads. -/
theorem c5_run_termination (cfg : Config) (l l2 : List ExitSignal)
    (hn : 1 ≤ cfg.clusters) (hlen : l.length = l2.length) :
    ((masterObserve (initialMasterState cfg) l).exited = true ↔
      cfg.clusters ≤ l.length) ∧
    masterObserve (initialMasterState cfg) l = masterObserve (initialMasterState cfg) l2 := by
  constructor
  · rw [show initialMasterState cfg = ⟨(cfg.clusters : Int), false⟩ from rfl,
      masterObserve_exit_iff (cfg.clusters : Int) (by exact_mod_cast hn) l]
    exact_mod_cast Iff.rfl
  · exact masterObserve_length_eq _ _ _ hlen

/-- Three-lane config for the C5 witness. -/
def cfg3 : Config := ⟨3, true, ⟨true, true, true, true, true⟩⟩

/-- Witness for C5: three lanes, three exit signals observed in two
different arrival orders. -/
theorem c5_run_termination_witness :
    1 ≤ cfg3.clusters ∧
    ([⟨11, 0⟩, ⟨12, 1⟩, ⟨13, 0⟩] : List ExitSignal).length =
      ([⟨13, 0⟩, ⟨11, 0⟩, ⟨12, 1⟩] : List ExitSignal).length ∧
    (((masterObserve (initialMasterState cfg3) [⟨11, 0⟩, ⟨12, 1⟩, ⟨13, 0⟩]).exited = true ↔
        cfg3.clusters ≤ ([⟨11, 0⟩, ⟨12, 1⟩, ⟨13, 0⟩] : List ExitSignal).length) ∧
     masterObserve (initialMasterState cfg3) [⟨11, 0⟩, ⟨12, 1⟩, ⟨13, 0⟩] =
       masterObserve (initialMasterState cfg3) [⟨13, 0⟩, ⟨11, 0⟩, ⟨12, 1⟩]) :=
  ⟨by decide, rfl,
   c5_run_termination cfg3 [⟨11, 0⟩, ⟨12, 1⟩, ⟨13, 0⟩] [⟨13, 0⟩, ⟨11, 0⟩, ⟨12, 1⟩]
     (by decide) rfl⟩

/-- The accounts transmitted via fork-and-send actions, in order. -/
def sentAccounts : List RunAction → List Account
  | [] => []
  | RunAction.forkAndSend chunk :: r => chunk ++ sentAccounts r
  | _ :: r => sentAccounts r

/-- Number of fork-and-send actions. -/
def forkCount : List RunAction → Nat
  | [] => 0
  | RunAction.forkAndSend _ :: r => forkCount r + 1
  | _ :: r => forkCount r

/-- Number of in-process `runTasks` invocations. -/
def inProcessCount : List RunAction → Nat
  | [] => 0
  | RunAction.runTasksInProcess _ :: r => inProcessCount r + 1
  | _ :: r => inProcessCount r

lemma sentAccounts_map_fork (chunks : List (List Account)) :
    sentAccounts (chunks.map RunAction.forkAndSend) = chunks.flatten := by
  induction chunks with
  | nil => rfl
  | cons c r ih => simp [sentAccounts, ih]

lemma inProcessCount_map_fork (chunks : List (List Account)) :
    inProcessCount (chunks.map RunAction.forkAndSend) = 0 := by
  induction chunks with
  | nil => rfl
  | cons c r ih => simp [inProcessCount, ih]

/-- Claim C10: with more than one configured cluster the primary process
only forks — one worker per chunk, `clusters` many, each chunk sent exactly
once, every account sent, and no in-process account run; with one cluster or
fewer the launching process runs all accounts in-process and forks nothing. -/
theorem c10_cluster_distribution (cfg : Config) (accounts : List Account)
    (isPrimary : Bool) :
    (1 < cfg.clusters →
      run cfg accounts true = (chunkArray accounts cfg.clusters).map RunAction.forkAndSend ∧
      (run cfg accounts true).length = cfg.clusters ∧
      sentAccounts (run cfg accounts true) = accounts ∧
      inProcessCount (run cfg accounts true) = 0) ∧
    (cfg.clusters ≤ 1 →
      run cfg accounts isPrimary = [RunAction.runTasksInProcess accounts] ∧
      forkCount (run cfg accounts isPrimary) = 0) := by
  constructor
  · intro h
    have hn : 1 ≤ cfg.clusters := by omega
    have hrun : run cfg accounts true =
        (chunkArray accounts cfg.clusters).map RunAction.forkAndSend := by
      simp [run, h]
    refine ⟨hrun, ?_, ?_, ?_⟩
    · rw [hrun, List.length_map, chunkArray, splitBySizes_length,
        chunkSizes_length _ _ hn]
    · rw [hrun, sentAccounts_map_fork, chunkArray,
        splitBySizes_flatten _ _ (chunkSizes_sum _ _ hn)]
    · rw [hrun, inProcessCount_map_fork]
  · intro h
    have hng : ¬ cfg.clusters > 1 := by omega
    have hrun : run cfg accounts isPrimary = [RunAction.runTasksInProcess accounts] := by
      simp [run, hng]
    exact ⟨hrun, by rw [hrun]; rfl⟩

/-- Witness for C10: a three-cluster primary run and a one-cluster
in-process run. -/
theorem c10_cluster_distribution_witness :
    (run cfg3 [accA, accB, accC] true =
        (chunkArray [accA, accB, accC] cfg3.clusters).map RunAction.forkAndSend ∧
     (run cfg3 [accA, accB, accC] true).length = cfg3.clusters ∧
     sentAccounts (run cfg3 [accA, accB, accC] true) = [accA, accB, accC] ∧
     inProcessCount (run cfg3 [accA, accB, accC] true) = 0) ∧
    (run cfgAll [accA, accB, accC] false = [RunAction.runTasksInProcess [accA, accB, accC]] ∧
     forkCount (run cfgAll [accA, accB, accC] false) = 0) :=
  ⟨(c10_cluster_distribution cfg3 [accA, accB, accC] true).1 (by decide),
   (c10_cluster_distribution cfgAll [accA, accB, accC] false).2 (by decide)⟩

lemma countP_runGuarded (p : Event → Bool) (l : List (Bool × Event × Option Fault))
    (h : ∀ x ∈ l, p x.2.1 = false) :
    List.countP p (runGuarded l).1 = 0 := by
  induction l with
  | nil => rfl
  | cons x rest ih =>
    obtain ⟨flag, ev, fault⟩ := x
    have hev : p ev = false := h _ (List.mem_cons_self _ _)
    have hrest : ∀ y ∈ rest, p y.2.1 = false := fun y hy => h y (List.mem_cons_of_mem _ hy)
    cases flag with
    | false => simpa [runGuarded] using ih hrest
    | true =>
      cases fault with
      | some f => simp [runGuarded, List.countP_cons, hev]
      | none =>
        rcases hr : runGuarded rest with ⟨t, r⟩
        have ht := ih hrest
        rw [hr] at ht
        simp [runGuarded, hr, List.countP_cons, hev, ht]

lemma closeCount_Desktop (cfg : Config) (account : Account) (e : DeskEnv) (c : Int) :
    closeBrowserCount (Desktop cfg account e c).1 =
      (if (Desktop cfg account e c).2.2 = none then 1 else 0) := by
  obtain ⟨ip, af, lf, gh, df, earn, f1, f2, f3, f4⟩ := e
  have hcl : List.countP isCloseBrowser
      (runGuarded (desktopTasks cfg ⟨ip, af, lf, gh, df, earn, f1, f2, f3, f4⟩)).1 = 0 := by
    refine countP_runGuarded _ _ fun x hx => ?_
    simp only [desktopTasks, List.mem_cons, List.not_mem_nil, or_false] at hx
    rcases hx with h | h | h | h <;> simp [h, isCloseBrowser]
  simp only [Desktop]
  repeat' split
  all_goals simp_all [closeBrowserCount, List.countP_append, List.countP_cons,
    countP_prunePages isCloseBrowser rfl, isCloseBrowser]

lemma closeCount_Mobile (cfg : Config) (account : Account) (e : MobEnv) (c : Int) :
    closeBrowserCount (Mobile cfg account e c).1 =
      (if (Mobile cfg account e c).2.2 = none then 1 else 0) := by
  obtain ⟨ip, af, lf, gh, df, mp, sf, ef, pe⟩ := e
  simp only [Mobile, mobileFinish]
  repeat' split
  all_goals simp_all [closeBrowserCount, List.countP_append, List.countP_cons,
    countP_prunePages isCloseBrowser rfl, isCloseBrowser]

/-- Desktop environment whose login call throws. -/
def deskEnvLoginFail : DeskEnv :=
  ⟨2, none, some Fault.loginFailed, true, none, 5, none, none, none, none⟩

/-- Counterexample to claim C1 as stated: when the login step raises, the
Desktop phase propagates the fault and `browser.close()` is never invoked —
the session-close step does not run on this exit path. -/
theorem c1_close_counterexample :
    (Desktop cfgAll accA deskEnvLoginFail 0).2.2 = some Fault.loginFailed ∧
    closeBrowserCount (Desktop cfgAll accA deskEnvLoginFail 0).1 = 0 := by
  constructor <;> rfl

/-- Claim C1 (amended): in each phase, `browser.close()` is invoked exactly
once on faultless runs — including the gated early exits — and zero times
when any earlier step raises, in which case the fault propagates with the
session left open. -/
theorem c1_close_amended (cfg : Config) (account : Account) (de : DeskEnv)
    (me : MobEnv) (c cm : Int) :
    closeBrowserCount (Desktop cfg account de c).1 =
      (if (Desktop cfg account de c).2.2 = none then 1 else 0) ∧
    closeBrowserCount (Mobile cfg account me cm).1 =
      (if (Mobile cfg account me cm).2.2 = none then 1 else 0) :=
  ⟨closeCount_Desktop cfg account de c, closeCount_Mobile cfg account me cm⟩
